import Mathlib

/-!
Verification of the numerical core of the `curva_longitud` repository.

The Python sources embedded here (shallowly, over a linear ordered field
standing for the real arithmetic the floats approximate) are:

* `src/proyecto_calculo_curvas/src/calculos_numericos.py`
  (`derivada_numerica`, `simpson_compuesto`, `longitud_arco`),
* `src/proyecto_calculo_curvas/src/calculo_longitud.py`
  (`calcular_longitud_curva` with its quadrature-then-segments fallback),
* `src/proyecto_calculo_curvas/src/ajuste_curva.py` (`ajuste_spline`),
* `src/proyecto_calculo_curvas/src/Demo2.py`
  (`calcular_longitud_curva` segment variant, `modelar_por_intervalos`).

Python exceptions are modelled with `Except Err`; `numpy`/`scipy` library
calls that the repository merely invokes (square root, `np.polyfit`,
`scipy.interpolate` constructors) are either taken as explicit function
parameters or modelled by their documented behaviour, as noted at each
definition.
-/

namespace CurvaLongitud

/-- Errors standing for Python exceptions raised while the core runs:
`eval` for an exception raised by evaluating a curve at a point, `tooFew`
for the `ValueError` scipy's `interp1d` raises when given fewer entries
than its kind needs, `fitFail` for an exception out of `np.polyfit`, and
`splineFail` for an exception out of `UnivariateSpline`. -/
inductive Err : Type
  | eval : Err
  | tooFew : Err
  | fitFail : Err
  | splineFail : Err
deriving DecidableEq, Repr

variable {α : Type} [LinearOrderedField α]

/-- Model of Python `range(start, stop, step)` for a positive `step`:
the arithmetic progression `start, start+step, ...` strictly below `stop`. -/
def pyRange (start stop step : ℕ) : List ℕ :=
  (List.range ((stop - start + step - 1) / step)).map (fun k => start + k * step)

/-- Model of `np.linspace(a, b, n)`: `n` evenly spaced samples whose first
element is `a` and, for `n ≥ 2`, whose step is `(b - a)/(n - 1)`. -/
def linspace (a b : α) (n : ℕ) : List α :=
  if n = 0 then []
  else if n = 1 then [a]
  else (List.range n).map (fun (i : ℕ) => a + (i : α) * ((b - a) / ((n - 1 : ℕ) : α)))

/-- Default subinterval count of `longitud_arco` (`n=100` in the source). -/
def n_default : ℕ := 100

/-- Default finite-difference step (`h=0.0001` in the source, both for
`derivada_numerica` and `longitud_arco`). -/
def h_default : α := 1 / 10000

/-- `derivada_numerica(f, x, h)` from `calculos_numericos.py`:
`(f(x + h) - f(x - h)) / (2 * h)`. -/
def derivada_numerica (f : α → α) (x h : α) : α :=
  (f (x + h) - f (x - h)) / (2 * h)

/-- `simpson_compuesto(f, a, b, n)` from `calculos_numericos.py`.
If `n` is odd it is incremented (`n += 1`), then `h = (b-a)/n`,
`suma = f(a) + f(b)` plus `4*f(x_i)` over `range(1, n, 2)` and `2*f(x_i)`
over `range(2, n, 2)` with `x_i = a + i*h`, and the result is
`(h/3) * suma`. -/
def simpson_compuesto (f : α → α) (a b : α) (n : ℕ) : α :=
  let m := if n % 2 ≠ 0 then n + 1 else n
  let h := (b - a) / (m : α)
  let suma := f a + f b
    + ((pyRange 1 m 2).map (fun (i : ℕ) => 4 * f (a + (i : α) * h))).sum
    + ((pyRange 2 m 2).map (fun (i : ℕ) => 2 * f (a + (i : α) * h))).sum
  (h / 3) * suma

/-- `longitud_arco(f, a, b, n, h)` from `calculos_numericos.py`: Simpson
integration of `integrado(x) = (1 + derivada_numerica(f,x,h)**2)**0.5`.
The square root (`** 0.5`) is the explicit parameter `sq`, instantiated
with `Real.sqrt` in the theorems. -/
def longitud_arco (sq : α → α) (f : α → α) (a b : α) (n : ℕ) (h : α) : α :=
  simpson_compuesto (fun x => sq (1 + (derivada_numerica f x h) ^ 2)) a b n

/-- Sum of the elements of `l` after replacing each by the constant `c`. -/
lemma sum_map_const {β : Type} (l : List β) (c : α) :
    (l.map (fun _ => c)).sum = (l.length : α) * c := by
  induction l with
  | nil => simp
  | cons x xs ih =>
      simp only [List.map_cons, List.sum_cons, ih, List.length_cons, Nat.cast_succ]
      ring

lemma pyRange_length (start stop step : ℕ) :
    (pyRange start stop step).length = (stop - start + step - 1) / step := by
  simp [pyRange]

/-- Core computation for claim C4: composite Simpson with an even positive
subinterval count applied to the constant function `1` gives `b - a`. -/
lemma simpson_const_one_even (a b : α) (t : ℕ) (ht : 1 ≤ t) :
    ((b - a) / ((2 * t : ℕ) : α) / 3) *
      (1 + 1
        + ((pyRange 1 (2 * t) 2).map (fun _ => (4 : α))).sum
        + ((pyRange 2 (2 * t) 2).map (fun _ => (2 : α))).sum) = b - a := by
  have l1 : (pyRange 1 (2 * t) 2).length = t := by
    rw [pyRange_length]; omega
  have l2 : (pyRange 2 (2 * t) 2).length = t - 1 := by
    rw [pyRange_length]; omega
  rw [sum_map_const, sum_map_const, l1, l2]
  have hc : ((t - 1 : ℕ) : α) = (t : α) - 1 := by
    rw [Nat.cast_sub ht, Nat.cast_one]
  have h2t : ((2 * t : ℕ) : α) ≠ 0 := by
    rw [Nat.cast_ne_zero]; omega
  have h3 : ((2 * t : ℕ) : α) * 3 ≠ 0 := mul_ne_zero h2t (by norm_num)
  have hsum : (1 : α) + 1 + (t : α) * 4 + ((t : α) - 1) * 2 = 3 * ((2 * t : ℕ) : α) := by
    push_cast; ring
  rw [hc, hsum, div_div, div_mul_eq_mul_div, mul_comm (3 : α) (((2 * t : ℕ) : α)),
    mul_div_assoc, div_self h3, mul_one]

/-- Claim C1: `longitud_arco f a b n h` is exactly
`simpson_compuesto g a b n` for the integrand
`g(x) = sq (1 + derivada_numerica(f,x,h)^2)` where `derivada_numerica`
is the central difference `(f(x+h) - f(x-h))/(2h)`; the source defaults
are `n = 100` and `h = 1e-4`. -/
theorem claim_C1_longitud_arco_es_simpson (sq f : ℝ → ℝ) (a b : ℝ) (n : ℕ) (h : ℝ) :
    longitud_arco sq f a b n h
        = simpson_compuesto (fun x => sq (1 + (derivada_numerica f x h) ^ 2)) a b n
      ∧ derivada_numerica f a h = (f (a + h) - f (a - h)) / (2 * h)
      ∧ n_default = 100
      ∧ (h_default : ℝ) = 1e-4 := by
  refine ⟨rfl, rfl, rfl, ?_⟩
  norm_num [h_default]

/-- Claim C4: for every `n ≥ 1`, composite Simpson applied to the constant
function `1` on `[a, b]` returns exactly `b - a` (over real arithmetic). -/
theorem claim_C4_simpson_constante (a b : ℝ) (n : ℕ) (hn : 1 ≤ n) :
    simpson_compuesto (fun _ => (1 : ℝ)) a b n = b - a := by
  simp only [simpson_compuesto, mul_one]
  split_ifs with hp
  · obtain ⟨t, ht1, ht⟩ : ∃ t, 1 ≤ t ∧ n + 1 = 2 * t := ⟨(n + 1) / 2, by omega, by omega⟩
    rw [ht]
    exact simpson_const_one_even a b t ht1
  · obtain ⟨t, ht1, ht⟩ : ∃ t, 1 ≤ t ∧ n = 2 * t := ⟨n / 2, by omega, by omega⟩
    rw [ht]
    exact simpson_const_one_even a b t ht1

/-- Witness for claim C4 at the concrete input `a = 0`, `b = 5`, `n = 2`. -/
theorem claim_C4_witness :
    1 ≤ 2 ∧ simpson_compuesto (fun _ => (1 : ℝ)) 0 5 2 = 5 - 0 :=
  ⟨by norm_num, claim_C4_simpson_constante 0 5 2 (by norm_num)⟩

/-- Claim C6: an odd subinterval count `n` is silently incremented, so
`simpson_compuesto f a b n` equals `simpson_compuesto f a b (n+1)`. -/
theorem claim_C6_simpson_impar (f : ℝ → ℝ) (a b : ℝ) (n : ℕ) (hodd : n % 2 = 1) :
    simpson_compuesto f a b n = simpson_compuesto f a b (n + 1) := by
  have h1 : (if n % 2 ≠ 0 then n + 1 else n) = n + 1 := if_pos (by omega)
  have h2 : (if (n + 1) % 2 ≠ 0 then (n + 1) + 1 else (n + 1)) = n + 1 := if_neg (by omega)
  simp only [simpson_compuesto, h1, h2]

/-- Witness for claim C6 at the concrete odd count `n = 3`. -/
theorem claim_C6_witness :
    3 % 2 = 1 ∧
      simpson_compuesto (fun x : ℝ => x) 0 1 3 = simpson_compuesto (fun x : ℝ => x) 0 1 4 :=
  ⟨by norm_num, claim_C6_simpson_impar (fun x => x) 0 1 3 (by norm_num)⟩

/-- Sum of the straight segment lengths between consecutive sample points:
`dx = np.diff(x)`, `dy = np.diff(y)`, `sum(np.sqrt(dx**2 + dy**2))` from
`calcular_longitud_curva` (`calculo_longitud.py` lines 51-59, identically
`Demo2.py` lines 172-180), with `np.sqrt` the parameter `sq`. -/
def segSum (sq : α → α) (xs ys : List α) : α :=
  (List.zipWith (fun dx dy => sq (dx ^ 2 + dy ^ 2))
    (List.zipWith (fun u v => u - v) xs.tail xs)
    (List.zipWith (fun u v => u - v) ys.tail ys)).sum

/-- Segment-sum length estimator for a curve that evaluates without
raising: sample `linspace(x_min, x_max, num_puntos)`, evaluate, sum the
segment lengths. -/
def longitud_segmentos (sq : α → α) (f : α → α) (xmin xmax : α) (n : ℕ) : α :=
  let xs := linspace xmin xmax n
  segSum sq xs (xs.map f)

/-- `derivada_numerica` over a curve evaluation that can raise: Python
evaluates `f(x + h)` first, then `f(x - h)`; either exception
propagates. -/
def derivada_numericaE (f : α → Except Err α) (x h : α) : Except Err α := do
  let y1 ← f (x + h)
  let y2 ← f (x - h)
  pure ((y1 - y2) / (2 * h))

/-- `simpson_compuesto` over a curve evaluation that can raise: the
evaluations happen in the source order `f(a)`, `f(b)`, the odd-index
nodes, then the even-index nodes, and the first exception propagates
(the source has no handler around them). -/
def simpson_compuestoE (f : α → Except Err α) (a b : α) (n : ℕ) : Except Err α := do
  let m := if n % 2 ≠ 0 then n + 1 else n
  let h := (b - a) / (m : α)
  let fa ← f a
  let fb ← f b
  let imp ← (pyRange 1 m 2).mapM (fun (i : ℕ) => f (a + (i : α) * h))
  let par ← (pyRange 2 m 2).mapM (fun (i : ℕ) => f (a + (i : α) * h))
  pure ((h / 3) * (fa + fb + (imp.map (fun v => 4 * v)).sum + (par.map (fun v => 2 * v)).sum))

/-- `longitud_arco` over a curve evaluation that can raise. -/
def longitud_arcoE (sq : α → α) (f : α → Except Err α) (a b : α) (n : ℕ) (h : α) :
    Except Err α :=
  simpson_compuestoE (fun x => (derivada_numericaE f x h).map (fun d => sq (1 + d ^ 2))) a b n

/-- The segment-sum estimator of `calcular_longitud_curva` over a curve
evaluation that can raise: the points are evaluated one by one (the
vectorised/scalar dispatch of the source only changes the calling
convention) and the first exception propagates. -/
def longitud_segmentosE (sq : α → α) (f : α → Except Err α) (xmin xmax : α) (n : ℕ) :
    Except Err α :=
  let xs := linspace xmin xmax n
  (xs.mapM f).map (fun ys => segSum sq xs ys)

/-- `calcular_longitud_curva(funcion, x_min, x_max, num_puntos)` from
`calculo_longitud.py`: `usar` is the module flag
`USAR_CALCULOS_NUMERICOS`. When it is set, `longitud_arco` is tried with
`n = num_puntos` and the default `h`; any exception from it is caught
(`except Exception`) and the segment-sum method runs instead. When the
flag is unset only the segment-sum method runs. -/
def calcular_longitud_curvaE (usar : Bool) (sq : α → α) (f : α → Except Err α)
    (xmin xmax : α) (n : ℕ) : Except Err α :=
  if usar then
    match longitud_arcoE sq f xmin xmax n h_default with
    | Except.ok v => Except.ok v
    | Except.error _ => longitud_segmentosE sq f xmin xmax n
  else
    longitud_segmentosE sq f xmin xmax n

/-- Test curve for the error-propagation claims: evaluates to `0` outside
the open interval `(0, 2)` and raises inside it. -/
def fParcial : α → Except Err α :=
  fun x => if x ≤ 0 ∨ 2 ≤ x then Except.ok 0 else Except.error Err.eval

/-- Under quadrature on `[0, 2]` with `n = 2`, the very first integrand
evaluation probes `fParcial (0 + h_default)`, which raises, and the
exception propagates out of `longitud_arcoE`. -/
lemma fParcial_quad_error :
    longitud_arcoE Real.sqrt fParcial 0 2 2 h_default = Except.error Err.eval := by
  have e1 : fParcial ((0 : ℝ) + h_default) = Except.error Err.eval := by
    rw [fParcial, h_default]
    norm_num
  simp only [longitud_arcoE, simpson_compuestoE, derivada_numericaE]
  rw [e1]
  rfl

lemma fParcial_at_zero : fParcial (0 : ℝ) = Except.ok 0 := by
  rw [fParcial]; norm_num

lemma fParcial_at_two : fParcial (2 : ℝ) = Except.ok 0 := by
  rw [fParcial]; norm_num

lemma linspace_dos (a b : α) : linspace a b 2 = [a, b] := by
  rw [linspace]
  norm_num [List.range_succ]

/-- The segment-sum estimator on `[0, 2]` with two sample points only
evaluates `fParcial` at `0` and `2`, where it does not raise, and returns
the straight-line length `2`. -/
lemma fParcial_seg_ok :
    longitud_segmentosE Real.sqrt fParcial 0 2 2 = Except.ok 2 := by
  have hm : List.mapM fParcial [(0 : ℝ), 2] = Except.ok [0, 0] := by
    simp only [List.mapM, List.mapM.loop, fParcial_at_zero, fParcial_at_two]
    rfl
  have hs : segSum Real.sqrt [(0 : ℝ), 2] [0, 0] = 2 := by
    simp only [segSum, List.tail_cons, List.zipWith, List.sum_cons, List.sum_nil]
    rw [show ((2 : ℝ) - 0) ^ 2 + (0 - 0) ^ 2 = 2 ^ 2 by norm_num,
      Real.sqrt_sq (by norm_num : (0 : ℝ) ≤ 2)]
    norm_num
  simp only [longitud_segmentosE, linspace_dos, hm, Except.map, hs]

/-- Counterexample to claim C2: on `[0, 2]` with `num_puntos = 2`, curve
evaluation raises during the quadrature length estimation, yet
`calcular_longitud_curva` returns the fallback segment-sum length `2`
instead of propagating the error. -/
theorem claim_C2_cex :
    longitud_arcoE Real.sqrt fParcial 0 2 2 h_default = Except.error Err.eval ∧
      calcular_longitud_curvaE true Real.sqrt fParcial 0 2 2 = Except.ok 2 := by
  refine ⟨fParcial_quad_error, ?_⟩
  rw [calcular_longitud_curvaE, if_pos rfl, fParcial_quad_error, fParcial_seg_ok]

/-- Claim C2 as amended: inside `calcular_longitud_curva` an exception
raised by the quadrature estimator is caught and replaced by the
segment-sum fallback result (the error is masked); a successful
quadrature value passes through; and an exception raised during the
segment-sum evaluation propagates to the caller unchanged (as the raw
exception — the code defines no NumericalEvaluationError wrapper). -/
theorem claim_C2_amended (sq : ℝ → ℝ) (f : ℝ → Except Err ℝ) (xmin xmax : ℝ) (n : ℕ) :
    (∀ e, longitud_arcoE sq f xmin xmax n h_default = Except.error e →
        calcular_longitud_curvaE true sq f xmin xmax n
          = longitud_segmentosE sq f xmin xmax n)
    ∧ (∀ v, longitud_arcoE sq f xmin xmax n h_default = Except.ok v →
        calcular_longitud_curvaE true sq f xmin xmax n = Except.ok v)
    ∧ (∀ e, longitud_segmentosE sq f xmin xmax n = Except.error e →
        calcular_longitud_curvaE false sq f xmin xmax n = Except.error e) := by
  refine ⟨fun e he => ?_, fun v hv => ?_, fun e he => ?_⟩
  · rw [calcular_longitud_curvaE, if_pos rfl, he]
  · rw [calcular_longitud_curvaE, if_pos rfl, hv]
  · rw [calcular_longitud_curvaE, if_neg (by simp), he]

/-- Witness for the amended claim C2 at the concrete curve `fParcial` on
`[0, 2]` with `num_puntos = 2`. -/
theorem claim_C2_witness :
    longitud_arcoE Real.sqrt fParcial 0 2 2 h_default = Except.error Err.eval ∧
      calcular_longitud_curvaE true Real.sqrt fParcial 0 2 2
        = longitud_segmentosE Real.sqrt fParcial 0 2 2 :=
  ⟨fParcial_quad_error,
    (claim_C2_amended Real.sqrt fParcial 0 2 2).1 Err.eval fParcial_quad_error⟩

/-- Every element of a `zipWith` is an image of the combining function. -/
lemma mem_zipWith_exists {β γ δ : Type} (g : β → γ → δ) :
    ∀ (l1 : List β) (l2 : List γ) (x : δ), x ∈ List.zipWith g l1 l2 → ∃ u v, x = g u v := by
  intro l1
  induction l1 with
  | nil => intro l2 x hx; simp at hx
  | cons a l ih =>
      intro l2 x hx
      cases l2 with
      | nil => simp at hx
      | cons b l2 =>
          rcases List.mem_cons.mp hx with h | h
          · exact ⟨a, b, h⟩
          · exact ih l2 x h

/-- Composite Simpson of a pointwise-nonnegative integrand over an
ordered interval is nonnegative. -/
lemma simpson_nonneg (g : ℝ → ℝ) (a b : ℝ) (n : ℕ) (hg : ∀ x, 0 ≤ g x) (hab : a ≤ b) :
    0 ≤ simpson_compuesto g a b n := by
  rw [simpson_compuesto]
  have hh : 0 ≤ (b - a) / ((if n % 2 ≠ 0 then n + 1 else n : ℕ) : ℝ) / 3 :=
    div_nonneg (div_nonneg (sub_nonneg.mpr hab) (Nat.cast_nonneg _)) (by norm_num)
  refine mul_nonneg hh ?_
  refine add_nonneg (add_nonneg (add_nonneg (hg a) (hg b)) ?_) ?_
  · refine List.sum_nonneg fun x hx => ?_
    obtain ⟨i, _, rfl⟩ := List.mem_map.mp hx
    exact mul_nonneg (by norm_num) (hg _)
  · refine List.sum_nonneg fun x hx => ?_
    obtain ⟨i, _, rfl⟩ := List.mem_map.mp hx
    exact mul_nonneg (by norm_num) (hg _)

/-- A sum of euclidean segment lengths is nonnegative. -/
lemma segSum_nonneg (xs ys : List ℝ) : 0 ≤ segSum Real.sqrt xs ys := by
  rw [segSum]
  refine List.sum_nonneg fun x hx => ?_
  obtain ⟨u, v, rfl⟩ := mem_zipWith_exists _ _ _ x hx
  exact Real.sqrt_nonneg _

/-- Claim C9: over an ordered interval, both length estimators — the
quadrature one and the segment-sum one — return nonnegative values, for
every curve, subinterval count, step and sample count. -/
theorem claim_C9_longitud_no_negativa (f : ℝ → ℝ) (a b h : ℝ) (n npts : ℕ) (hab : a ≤ b) :
    0 ≤ longitud_arco Real.sqrt f a b n h ∧ 0 ≤ longitud_segmentos Real.sqrt f a b npts := by
  constructor
  · exact simpson_nonneg _ a b n (fun x => Real.sqrt_nonneg _) hab
  · rw [longitud_segmentos]
    exact segSum_nonneg _ _

/-- Witness for claim C9 at the concrete curve `id` on `[0, 1]`. -/
theorem claim_C9_witness :
    (0 : ℝ) ≤ 1 ∧
      0 ≤ longitud_arco Real.sqrt (fun x => x) 0 1 2 (h_default : ℝ) ∧
        0 ≤ longitud_segmentos Real.sqrt (fun x => x) 0 1 5 :=
  ⟨by norm_num, claim_C9_longitud_no_negativa (fun x => x) 0 1 h_default 2 5 (by norm_num)⟩

/-- Threshold below which two x values count as the same point in
`ajuste_spline` (`epsilon = 1e-10` in the source). -/
def epsilon_spline : α := 1 / 10 ^ 10

/-- Sorting step of `ajuste_spline`
(`puntos[np.argsort(puntos[:,0])]`): the points ordered by their x
coordinate. -/
def ordenar_por_x (pts : List (α × α)) : List (α × α) :=
  List.insertionSort (fun p q => p.1 ≤ q.1) pts

/-- Filtering loop of `ajuste_spline`: iterate over the sorted points,
keeping a point only when its x exceeds the last kept x (`ultimo_x`,
initially `-inf`, modelled by `none`) by more than `epsilon`; dropped
points leave `ultimo_x` unchanged. -/
def filtrar_crecientes : List (α × α) → Option α → List (α × α)
  | [], _ => []
  | p :: rest, none => p :: filtrar_crecientes rest (some p.1)
  | p :: rest, some lx =>
      if lx + epsilon_spline < p.1 then p :: filtrar_crecientes rest (some p.1)
      else filtrar_crecientes rest (some lx)

/-- The `x_procesado`/`y_procesado` point list of `ajuste_spline`: sort by
x, then filter to strictly increasing x. -/
def puntos_filtrados (pts : List (α × α)) : List (α × α) :=
  filtrar_crecientes (ordenar_por_x pts) none

/-- The value `ajuste_spline` returns: a scipy interpolant, tagged by the
constructor used — a linear `interp1d`, a `UnivariateSpline` object
(abstract, of type `S`), or a cubic `interp1d` fallback. -/
inductive Curva (α : Type) (S : Type) : Type
  | lineal (xs ys : List α) : Curva α S
  | spline (o : S) : Curva α S
  | cubica (xs ys : List α) : Curva α S

/-- Model of `scipy.interpolate.interp1d(x, y, kind='linear',
bounds_error=False, fill_value="extrapolate")`: the constructor validates
that the arrays have at least 2 entries ("x and y arrays must have at
least 2 entries") and raises ValueError otherwise; on success the
interpolant evaluates everywhere since extrapolation is enabled. -/
def interp1d_lineal {S : Type} (xs ys : List α) : Except Err (Curva α S) :=
  if xs.length < 2 then Except.error Err.tooFew else Except.ok (Curva.lineal xs ys)

/-- Model of `scipy.interpolate.interp1d(x, y, kind='cubic',
bounds_error=False, fill_value="extrapolate")`: as `interp1d_lineal`, but
a cubic interpolant requires at least 4 entries. -/
def interp1d_cubica {S : Type} (xs ys : List α) : Except Err (Curva α S) :=
  if xs.length < 4 then Except.error Err.tooFew else Except.ok (Curva.cubica xs ys)

/-- `ajuste_spline(puntos, s)` from `ajuste_curva.py`: sort by x, filter
near-duplicate x values, then — fewer than 4 points left: return a linear
`interp1d` with extrapolation (not inside any handler, so its ValueError
propagates); otherwise try `UnivariateSpline` (the library call is the
parameter `uspline`) and, if that raises, fall back to a cubic
`interp1d` with extrapolation. -/
def ajuste_spline {S : Type} (uspline : List α → List α → α → Except Err S)
    (puntos : List (α × α)) (s : α) : Except Err (Curva α S) :=
  let filt := puntos_filtrados puntos
  let xs := filt.map Prod.fst
  let ys := filt.map Prod.snd
  if filt.length < 4 then interp1d_lineal xs ys
  else
    match uspline xs ys s with
    | Except.ok o => Except.ok (Curva.spline o)
    | Except.error _ => interp1d_cubica xs ys

/-- The head of a filtered list starting from last-kept value `lx`
exceeds `lx` by more than epsilon. -/
lemma filtrar_head_gt :
    ∀ (pts : List (α × α)) (lx : α) (p : α × α),
      (filtrar_crecientes pts (some lx)).head? = some p →
        lx + epsilon_spline < p.1 := by
  intro pts
  induction pts with
  | nil => intro lx p hp; simp [filtrar_crecientes] at hp
  | cons q rest ih =>
      intro lx p hp
      rw [filtrar_crecientes] at hp
      by_cases hq : lx + epsilon_spline < q.1
      · rw [if_pos hq] at hp
        obtain rfl : q = p := by simpa using hp
        exact hq
      · rw [if_neg hq] at hp
        exact ih lx p hp

/-- The filtering loop always produces a list whose consecutive x values
increase by more than epsilon. -/
lemma filtrar_chain :
    ∀ (pts : List (α × α)) (o : Option α),
      List.Chain' (fun p q : α × α => p.1 + epsilon_spline < q.1)
        (filtrar_crecientes pts o) := by
  intro pts
  induction pts with
  | nil => intro o; simp [filtrar_crecientes]
  | cons q rest ih =>
      intro o
      match o with
      | none =>
          rw [filtrar_crecientes]
          exact List.chain'_cons'.mpr ⟨fun y hy => filtrar_head_gt rest q.1 y hy, ih _⟩
      | some lx =>
          rw [filtrar_crecientes]
          by_cases hq : lx + epsilon_spline < q.1
          · rw [if_pos hq]
            exact List.chain'_cons'.mpr ⟨fun y hy => filtrar_head_gt rest q.1 y hy, ih _⟩
          · rw [if_neg hq]
            exact ih _

/-- When 2 or 3 points survive the filtering, `ajuste_spline` returns the
linear interpolant over exactly the filtered points. -/
lemma ajuste_spline_lineal {S : Type} (uspline : List ℝ → List ℝ → ℝ → Except Err S)
    (puntos : List (ℝ × ℝ)) (s : ℝ)
    (h2 : 2 ≤ (puntos_filtrados puntos).length)
    (h4 : (puntos_filtrados puntos).length < 4) :
    ajuste_spline uspline puntos s
      = Except.ok (Curva.lineal ((puntos_filtrados puntos).map Prod.fst)
          ((puntos_filtrados puntos).map Prod.snd)) := by
  rw [ajuste_spline]
  simp only [if_pos h4]
  rw [interp1d_lineal, if_neg]
  simp only [List.length_map]
  omega

/-- When fewer than 2 points survive the filtering, the linear `interp1d`
constructor raises and the exception propagates out of
`ajuste_spline`. -/
lemma ajuste_spline_pocos {S : Type} (uspline : List ℝ → List ℝ → ℝ → Except Err S)
    (puntos : List (ℝ × ℝ)) (s : ℝ)
    (h1 : (puntos_filtrados puntos).length < 2) :
    ajuste_spline uspline puntos s = Except.error Err.tooFew := by
  rw [ajuste_spline]
  simp only [if_pos (by omega : (puntos_filtrados puntos).length < 4)]
  rw [interp1d_lineal, if_pos]
  simp only [List.length_map]
  omega

/-- When at least 4 points survive the filtering, `ajuste_spline` returns
some curve: the spline object on success, the cubic fallback otherwise
(which has the 4 points it needs). -/
lemma ajuste_spline_muchos {S : Type} (uspline : List ℝ → List ℝ → ℝ → Except Err S)
    (puntos : List (ℝ × ℝ)) (s : ℝ)
    (h4 : 4 ≤ (puntos_filtrados puntos).length) :
    ∃ c, ajuste_spline uspline puntos s = Except.ok c := by
  rw [ajuste_spline]
  simp only [if_neg (by omega : ¬(puntos_filtrados puntos).length < 4)]
  cases huv : uspline ((puntos_filtrados puntos).map Prod.fst)
      ((puntos_filtrados puntos).map Prod.snd) s with
  | ok o => exact ⟨Curva.spline o, rfl⟩
  | error e =>
      refine ⟨Curva.cubica ((puntos_filtrados puntos).map Prod.fst)
        ((puntos_filtrados puntos).map Prod.snd), ?_⟩
      rw [interp1d_cubica, if_neg]
      simp only [List.length_map]
      omega

/-- Counterexample to claim C5: both input points share (exactly) the x
value `1`, so a single point survives the filtering; fewer than 4 points
remain, yet `ajuste_spline` does not return a linear interpolant — the
`interp1d` constructor raises for lack of a second point. -/
theorem claim_C5_cex :
    ajuste_spline (fun _ _ _ => (Except.error Err.splineFail : Except Err Unit))
        [((1 : ℝ), 1), (1, 2)] (1 / 10)
      = Except.error Err.tooFew := by
  have hfilt : puntos_filtrados [((1 : ℝ), 1), (1, 2)] = [(1, 1)] := by
    rw [puntos_filtrados, ordenar_por_x]
    norm_num [List.insertionSort, List.orderedInsert, filtrar_crecientes, epsilon_spline]
  rw [ajuste_spline]
  simp only [hfilt]
  norm_num [interp1d_lineal]

/-- Claim C5 as amended: `ajuste_spline` sorts by x and keeps a point
only when its x exceeds the last kept x by more than `1e-10` (first point
in sorted order wins); when 2 or 3 points remain it returns the linear
interpolant over the filtered points with extrapolation enabled; but when
fewer than 2 remain, the linear-interpolant construction itself raises
(scipy `interp1d` requires at least 2 entries), so nothing is
returned. -/
theorem claim_C5_amended {S : Type} (uspline : List ℝ → List ℝ → ℝ → Except Err S)
    (puntos : List (ℝ × ℝ)) (s : ℝ) :
    List.Chain' (fun p q : ℝ × ℝ => p.1 + epsilon_spline < q.1) (puntos_filtrados puntos)
    ∧ (2 ≤ (puntos_filtrados puntos).length → (puntos_filtrados puntos).length < 4 →
        ajuste_spline uspline puntos s
          = Except.ok (Curva.lineal ((puntos_filtrados puntos).map Prod.fst)
              ((puntos_filtrados puntos).map Prod.snd)))
    ∧ ((puntos_filtrados puntos).length < 2 →
        ajuste_spline uspline puntos s = Except.error Err.tooFew) :=
  ⟨filtrar_chain _ _, fun h2 h4 => ajuste_spline_lineal uspline puntos s h2 h4,
    fun h1 => ajuste_spline_pocos uspline puntos s h1⟩

/-- Witness for the amended claim C5: three points of which two share the
x value `1` up to epsilon; two points survive and the linear interpolant
over them is returned. -/
theorem claim_C5_witness :
    2 ≤ (puntos_filtrados [((0 : ℝ), 0), (1, 1), (1, 2)]).length
    ∧ (puntos_filtrados [((0 : ℝ), 0), (1, 1), (1, 2)]).length < 4
    ∧ ajuste_spline (fun _ _ _ => (Except.ok () : Except Err Unit))
          [((0 : ℝ), 0), (1, 1), (1, 2)] (1 / 10)
        = Except.ok (Curva.lineal
            ((puntos_filtrados [((0 : ℝ), 0), (1, 1), (1, 2)]).map Prod.fst)
            ((puntos_filtrados [((0 : ℝ), 0), (1, 1), (1, 2)]).map Prod.snd)) := by
  have hfilt : puntos_filtrados [((0 : ℝ), 0), (1, 1), (1, 2)] = [(0, 0), (1, 1)] := by
    rw [puntos_filtrados, ordenar_por_x]
    norm_num [List.insertionSort, List.orderedInsert, filtrar_crecientes, epsilon_spline]
  refine ⟨by rw [hfilt]; norm_num, by rw [hfilt]; norm_num, ?_⟩
  exact (claim_C5_amended (fun _ _ _ => (Except.ok () : Except Err Unit))
    [((0 : ℝ), 0), (1, 1), (1, 2)] (1 / 10)).2.1
    (by rw [hfilt]; norm_num) (by rw [hfilt]; norm_num)

/-- Counterexample to claim C7: an input whose points all share the x
value `5` (duplicate x values). Only one point survives the filtering and
`ajuste_spline` raises instead of returning an evaluable curve. -/
theorem claim_C7_cex :
    ajuste_spline (fun _ _ _ => (Except.ok () : Except Err Unit))
        [((5 : ℝ), 0), (5, 1), (5, 2)] (1 / 10)
      = Except.error Err.tooFew := by
  have hfilt : puntos_filtrados [((5 : ℝ), 0), (5, 1), (5, 2)] = [(5, 0)] := by
    rw [puntos_filtrados, ordenar_por_x]
    norm_num [List.insertionSort, List.orderedInsert, filtrar_crecientes, epsilon_spline]
  rw [ajuste_spline]
  simp only [hfilt]
  norm_num [interp1d_lineal]

/-- Claim C7 as amended: on points with duplicate (or epsilon-close) x
values `ajuste_spline` does not raise and returns a curve provided at
least 2 filtered points remain; when every point collapses onto a single
filtered x, the linear `interp1d` constructor raises its
too-few-entries ValueError. -/
theorem claim_C7_amended {S : Type} (uspline : List ℝ → List ℝ → ℝ → Except Err S)
    (puntos : List (ℝ × ℝ)) (s : ℝ)
    (h2 : 2 ≤ (puntos_filtrados puntos).length) :
    ∃ c, ajuste_spline uspline puntos s = Except.ok c := by
  by_cases h4 : (puntos_filtrados puntos).length < 4
  · exact ⟨_, ajuste_spline_lineal uspline puntos s h2 h4⟩
  · exact ajuste_spline_muchos uspline puntos s (by omega)

/-- Witness for the amended claim C7: points with a duplicate x value
`0`; two points survive the filtering and a curve is returned. -/
theorem claim_C7_witness :
    2 ≤ (puntos_filtrados [((0 : ℝ), 0), (0, 5), (1, 1)]).length
    ∧ ∃ c, ajuste_spline (fun _ _ _ => (Except.ok () : Except Err Unit))
        [((0 : ℝ), 0), (0, 5), (1, 1)] (1 / 10) = Except.ok c := by
  have hfilt : puntos_filtrados [((0 : ℝ), 0), (0, 5), (1, 1)] = [(0, 0), (1, 1)] := by
    rw [puntos_filtrados, ordenar_por_x]
    norm_num [List.insertionSort, List.orderedInsert, filtrar_crecientes, epsilon_spline]
  refine ⟨by rw [hfilt]; norm_num, ?_⟩
  exact claim_C7_amended (fun _ _ _ => (Except.ok () : Except Err Unit))
    [((0 : ℝ), 0), (0, 5), (1, 1)] (1 / 10) (by rw [hfilt]; norm_num)

/-- `np.polyval(coefs, x)`: Horner evaluation of a polynomial given with
its highest-degree coefficient first. -/
def np_polyval (coefs : List α) (x : α) : α :=
  coefs.foldl (fun acc c => acc * x + c) 0

/-- `calcular_longitud_curva` as redefined inside `Demo2.py` (lines
147-182): only the segment-sum method, no quadrature branch. -/
def calcular_longitud_curva_demoE (sq : α → α) (f : α → Except Err α) (xmin xmax : α)
    (n : ℕ) : Except Err α :=
  longitud_segmentosE sq f xmin xmax n

/-- The `try/except` around the per-interval length computation in
`modelar_por_intervalos` (Demo2 lines 288-292): an exception is caught
and the length set to `0` (the reason is only printed). -/
def tryLongitud (sq : α → α) (f : α → Except Err α) (a b : α) (n : ℕ) : α :=
  match calcular_longitud_curva_demoE sq f a b n with
  | Except.ok v => v
  | Except.error _ => 0

/-- Point selection of `modelar_por_intervalos` (Demo2 lines 260-261):
the points whose x lies in `[inicio, fin]`, both ends inclusive. -/
def puntosEnIntervalo (ord : List (α × α)) (inicio fin : α) : List (α × α) :=
  ord.filter (fun p => decide (inicio ≤ p.1 ∧ p.1 ≤ fin))

/-- Borrowing step of `modelar_por_intervalos` (Demo2 lines 267-273):
distances `min(|x - inicio|, |x - fin|)`, `argsort`, take the first 4
points. -/
def puntosCercanos (ord : List (α × α)) (inicio fin : α) : List (α × α) :=
  ((List.insertionSort (fun a b => a.1 ≤ b.1)
      (ord.map (fun p => (min |p.1 - inicio| |p.1 - fin|, p)))).map Prod.snd).take 4

/-- Point-selection-and-degree policy of `modelar_por_intervalos` (Demo2
lines 259-276): with at least 4 points in the sub-interval the degree is
3; otherwise `grado = min(count - 1, 2)` and, when that is below 1, the 4
nearest points are borrowed and `grado = min(len(borrowed) - 1, 3)`. -/
def seleccionar_puntos_grado (ord : List (α × α)) (inicio fin : α) :
    List (α × α) × ℤ :=
  let pts := puntosEnIntervalo ord inicio fin
  if pts.length < 4 then
    let grado : ℤ := min ((pts.length : ℤ) - 1) 2
    if grado < 1 then
      let pts2 := puntosCercanos ord inicio fin
      (pts2, min ((pts2.length : ℤ) - 1) 3)
    else (pts, grado)
  else (pts, 3)

/-- Loop of `modelar_por_intervalos` (Demo2 lines 254-300) over the list
of interval indices: a sub-interval with at most 1 selected point appends
nothing; otherwise `np.polyfit` (the parameter `pf`, an external library
call that can raise, in which case nothing catches it) produces the
coefficients and a record `((inicio, fin), coefs, longitud)` is appended,
with the length computed through the guarded `tryLongitud` on the
polynomial evaluator. -/
def modelarGo (pf : List (α × α) → ℤ → Except Err (List α)) (sq : α → α)
    (ord : List (α × α)) (limites : List α) :
    List ℕ → Except Err (List ((α × α) × List α × α))
  | [] => Except.ok []
  | i :: rest =>
      let inicio := limites.getD i 0
      let fin := limites.getD (i + 1) 0
      let sel := seleccionar_puntos_grado ord inicio fin
      if 1 < sel.1.length then
        match pf sel.1 sel.2 with
        | Except.error e => Except.error e
        | Except.ok coefs =>
            (modelarGo pf sq ord limites rest).map
              (fun recs => ((inicio, fin), coefs,
                tryLongitud sq (fun x => Except.ok (np_polyval coefs x)) inicio fin 50)
                :: recs)
      else modelarGo pf sq ord limites rest

/-- `modelar_por_intervalos(puntos, x_min, x_max, num_intervalos)` from
`Demo2.py`: sort the points by x, split `[x_min, x_max]` with
`np.linspace(x_min, x_max, num_intervalos + 1)`, and run the
per-interval loop. -/
def modelar_por_intervalos (pf : List (α × α) → ℤ → Except Err (List α)) (sq : α → α)
    (puntos : List (α × α)) (xmin xmax : α) (k : ℕ) :
    Except Err (List ((α × α) × List α × α)) :=
  modelarGo pf sq (ordenar_por_x puntos) (linspace xmin xmax (k + 1)) (List.range k)

/-- Counterexample to claim C3: the interval `[-1, 1]` holds exactly one
of the four points, so by the claim the fit degree should be
`min(1 - 1, 2) = 0`; the code instead borrows the 4 nearest points and
uses degree 3. -/
theorem claim_C3_cex :
    (puntosEnIntervalo [((0 : ℝ), 0), (4, 0), (5, 0), (6, 0)] (-1) 1).length = 1
    ∧ (seleccionar_puntos_grado [((0 : ℝ), 0), (4, 0), (5, 0), (6, 0)] (-1) 1).2 = 3 := by
  have hpts : puntosEnIntervalo [((0 : ℝ), 0), (4, 0), (5, 0), (6, 0)] (-1) 1 = [(0, 0)] := by
    norm_num [puntosEnIntervalo, List.filter]
  have hcer : (puntosCercanos [((0 : ℝ), 0), (4, 0), (5, 0), (6, 0)] (-1) 1).length = 4 := by
    rw [puntosCercanos]
    norm_num [List.insertionSort, List.orderedInsert, abs_of_nonneg, abs_of_nonpos]
  refine ⟨by rw [hpts]; rfl, ?_⟩
  simp only [seleccionar_puntos_grado, hpts]
  split_ifs with h1 h2
  · show min (((puntosCercanos [((0 : ℝ), 0), (4, 0), (5, 0), (6, 0)] (-1) 1).length : ℤ) - 1)
        3 = 3
    rw [hcer]
    norm_num
  · exfalso
    simp at h2
  · exfalso
    simp at h1

/-- Claim C3 as amended: with at least 4 points in the sub-interval the
degree is 3; with 2 or 3 points it is `count - 1` (that is,
`min(count-1, 2)`); with 0 **or 1** points the code borrows the 4 points
nearest the boundaries and uses degree `min(borrowed - 1, 3)` — the
borrow branch triggers whenever `min(count-1, 2) < 1`, i.e. already at a
single point, not only at zero points. -/
theorem claim_C3_amended (ord : List (ℝ × ℝ)) (inicio fin : ℝ) :
    (4 ≤ (puntosEnIntervalo ord inicio fin).length →
      seleccionar_puntos_grado ord inicio fin = (puntosEnIntervalo ord inicio fin, 3))
    ∧ (2 ≤ (puntosEnIntervalo ord inicio fin).length →
        (puntosEnIntervalo ord inicio fin).length < 4 →
      seleccionar_puntos_grado ord inicio fin
        = (puntosEnIntervalo ord inicio fin,
            ((puntosEnIntervalo ord inicio fin).length : ℤ) - 1))
    ∧ ((puntosEnIntervalo ord inicio fin).length ≤ 1 →
      seleccionar_puntos_grado ord inicio fin
        = (puntosCercanos ord inicio fin,
            min (((puntosCercanos ord inicio fin).length : ℤ) - 1) 3)) := by
  refine ⟨fun h4 => ?_, fun h2 h4 => ?_, fun h1 => ?_⟩
  · rw [seleccionar_puntos_grado, if_neg (by omega)]
  · simp only [seleccionar_puntos_grado]
    rw [if_pos h4, if_neg (by omega)]
    have : min (((puntosEnIntervalo ord inicio fin).length : ℤ) - 1) 2
        = ((puntosEnIntervalo ord inicio fin).length : ℤ) - 1 := by omega
    rw [this]
  · simp only [seleccionar_puntos_grado]
    rw [if_pos (by omega), if_pos (by omega)]

/-- Witness for the amended claim C3: an interval holding exactly 2
points is fitted with degree 1. -/
theorem claim_C3_witness :
    2 ≤ (puntosEnIntervalo [((0 : ℝ), 0), (1, 1)] 0 1).length
    ∧ (puntosEnIntervalo [((0 : ℝ), 0), (1, 1)] 0 1).length < 4
    ∧ seleccionar_puntos_grado [((0 : ℝ), 0), (1, 1)] 0 1
        = (puntosEnIntervalo [((0 : ℝ), 0), (1, 1)] 0 1,
            ((puntosEnIntervalo [((0 : ℝ), 0), (1, 1)] 0 1).length : ℤ) - 1) := by
  have hpts : puntosEnIntervalo [((0 : ℝ), 0), (1, 1)] 0 1 = [(0, 0), (1, 1)] := by
    norm_num [puntosEnIntervalo, List.filter]
  refine ⟨by rw [hpts]; norm_num, by rw [hpts]; norm_num, ?_⟩
  exact (claim_C3_amended [((0 : ℝ), 0), (1, 1)] 0 1).2.1
    (by rw [hpts]; norm_num) (by rw [hpts]; norm_num)

/-- With two points in a single interval, a `polyfit` that raises makes
the whole of `modelar_por_intervalos` raise: the fit call sits outside
the `try/except`. -/
lemma modelar_fit_error (sq : ℝ → ℝ) (e : Err) :
    modelar_por_intervalos (fun _ _ => Except.error e) sq [((0 : ℝ), 0), (2, 0)] 0 2 1
      = Except.error e := by
  have hord : ordenar_por_x [((0 : ℝ), 0), (2, 0)] = [(0, 0), (2, 0)] := by
    norm_num [ordenar_por_x, List.insertionSort, List.orderedInsert]
  have hpts : puntosEnIntervalo [((0 : ℝ), 0), (2, 0)] 0 2 = [(0, 0), (2, 0)] := by
    norm_num [puntosEnIntervalo, List.filter]
  have hsel : seleccionar_puntos_grado [((0 : ℝ), 0), (2, 0)] 0 2 = ([(0, 0), (2, 0)], 1) := by
    simp only [seleccionar_puntos_grado, hpts]
    norm_num
  rw [modelar_por_intervalos, hord, linspace_dos, show List.range 1 = [0] by decide]
  simp only [modelarGo, List.getD_cons_zero, List.getD_cons_succ, hsel]
  norm_num

/-- Counterexample to claim C8: a sub-interval whose polynomial fit
raises does not contribute length 0 — the exception aborts
`modelar_por_intervalos` and no record at all is produced. -/
theorem claim_C8_cex :
    modelar_por_intervalos (fun _ _ => Except.error Err.fitFail) Real.sqrt
        [((0 : ℝ), 0), (2, 0)] 0 2 1
      = Except.error Err.fitFail :=
  modelar_fit_error Real.sqrt Err.fitFail

/-- Claim C8 as amended: only the per-interval length computation is
guarded — an exception raised while computing a sub-interval's length is
caught and that length becomes 0 (the record is still produced; the
reason is only printed) — whereas an exception raised by the polynomial
fit itself is not caught and aborts the processing of all
sub-intervals. -/
theorem claim_C8_amended :
    (∀ (sq : ℝ → ℝ) (f : ℝ → Except Err ℝ) (a b : ℝ) (n : ℕ) (e : Err),
        calcular_longitud_curva_demoE sq f a b n = Except.error e →
          tryLongitud sq f a b n = 0)
    ∧ ∀ (sq : ℝ → ℝ) (e : Err),
        modelar_por_intervalos (fun _ _ => Except.error e) sq [((0 : ℝ), 0), (2, 0)] 0 2 1
          = Except.error e := by
  constructor
  · intro sq f a b n e he
    rw [tryLongitud, he]
  · intro sq e
    exact modelar_fit_error sq e

/-- Witness for the amended claim C8: a curve whose evaluation always
raises makes the segment length computation raise, and the guarded
length becomes 0. -/
theorem claim_C8_witness :
    calcular_longitud_curva_demoE Real.sqrt (fun _ => Except.error Err.eval) 0 1 2
        = Except.error Err.eval
    ∧ tryLongitud Real.sqrt (fun _ => Except.error Err.eval) 0 1 2 = 0 :=
  ⟨rfl, claim_C8_amended.1 Real.sqrt (fun _ => Except.error Err.eval) 0 1 2 Err.eval rfl⟩

/-- In the per-interval loop, a successful run produces exactly one
record per processed index whose selected point list has more than one
element, in loop order, and the record's interval start is the
corresponding `limites` entry. -/
lemma modelarGo_ok_starts (pf : List (ℝ × ℝ) → ℤ → Except Err (List ℝ)) (sq : ℝ → ℝ)
    (ord : List (ℝ × ℝ)) (limites : List ℝ) :
    ∀ (l : List ℕ) (recs : List ((ℝ × ℝ) × List ℝ × ℝ)),
      modelarGo pf sq ord limites l = Except.ok recs →
        recs.map (fun r => r.1.1)
          = (l.filter (fun i => decide (1 < (seleccionar_puntos_grado ord
              (limites.getD i 0) (limites.getD (i + 1) 0)).1.length))).map
              (fun i => limites.getD i 0) := by
  intro l
  induction l with
  | nil =>
      intro recs h
      simp only [modelarGo] at h
      obtain rfl : ([] : List ((ℝ × ℝ) × List ℝ × ℝ)) = recs := by
        simpa using h
      simp
  | cons i rest ih =>
      intro recs h
      simp only [modelarGo] at h
      by_cases hc : 1 < (seleccionar_puntos_grado ord
          (limites.getD i 0) (limites.getD (i + 1) 0)).1.length
      · rw [if_pos hc] at h
        cases hpf : pf (seleccionar_puntos_grado ord
            (limites.getD i 0) (limites.getD (i + 1) 0)).1
            (seleccionar_puntos_grado ord
              (limites.getD i 0) (limites.getD (i + 1) 0)).2 with
        | error e =>
            rw [hpf] at h
            exact absurd h (by simp)
        | ok coefs =>
            rw [hpf] at h
            cases hrec : modelarGo pf sq ord limites rest with
            | error e =>
                rw [hrec] at h
                exact absurd h (by simp [Except.map])
            | ok recs' =>
                rw [hrec] at h
                simp only [Except.map] at h
                obtain rfl : ((limites.getD i 0, limites.getD (i + 1) 0), coefs,
                    tryLongitud sq (fun x => Except.ok (np_polyval coefs x))
                      (limites.getD i 0) (limites.getD (i + 1) 0) 50) :: recs' = recs := by
                  simpa using h
                rw [List.filter_cons_of_pos (by simpa using hc)]
                simp only [List.map_cons]
                exact congrArg _ (ih recs' hrec)
      · rw [if_neg hc] at h
        rw [List.filter_cons_of_neg (by simpa using hc)]
        exact ih recs h

lemma linspace_length (a b : α) (n : ℕ) : (linspace a b n).length = n := by
  rw [linspace]
  split_ifs with h0 h1
  · simp [h0]
  · simp [h1]
  · simp

lemma linspace_getD (a b : α) (n i : ℕ) (hn : 2 ≤ n) (hi : i < n) :
    (linspace a b n).getD i 0 = a + (i : α) * ((b - a) / ((n - 1 : ℕ) : α)) := by
  rw [linspace, if_neg (by omega), if_neg (by omega)]
  rw [List.getD_eq_getElem _ _ (by simpa using hi)]
  simp

/-- Claim C10: when `modelar_por_intervalos` returns records, there are
at most `num_intervalos` of them, their interval starts are in ascending
order, and there is exactly one record per sub-interval index whose
selected (or borrowed) point list has more than one point — a
sub-interval left with fewer than 2 points is silently omitted, so the
output can be shorter than `num_intervalos`. -/
theorem claim_C10_registros (pf : List (ℝ × ℝ) → ℤ → Except Err (List ℝ)) (sq : ℝ → ℝ)
    (puntos : List (ℝ × ℝ)) (xmin xmax : ℝ) (k : ℕ)
    (recs : List ((ℝ × ℝ) × List ℝ × ℝ))
    (hab : xmin ≤ xmax)
    (hok : modelar_por_intervalos pf sq puntos xmin xmax k = Except.ok recs) :
    recs.length ≤ k
    ∧ List.Sorted (· ≤ ·) (recs.map (fun r => r.1.1))
    ∧ recs.length = ((List.range k).filter (fun i =>
        decide (1 < (seleccionar_puntos_grado (ordenar_por_x puntos)
          ((linspace xmin xmax (k + 1)).getD i 0)
          ((linspace xmin xmax (k + 1)).getD (i + 1) 0)).1.length))).length := by
  rw [modelar_por_intervalos] at hok
  have hmap := modelarGo_ok_starts pf sq (ordenar_por_x puntos)
    (linspace xmin xmax (k + 1)) (List.range k) recs hok
  have hlen : recs.length = ((List.range k).filter (fun i =>
      decide (1 < (seleccionar_puntos_grado (ordenar_por_x puntos)
        ((linspace xmin xmax (k + 1)).getD i 0)
        ((linspace xmin xmax (k + 1)).getD (i + 1) 0)).1.length))).length := by
    have := congrArg List.length hmap
    simpa using this
  refine ⟨?_, ?_, hlen⟩
  · rw [hlen]
    calc ((List.range k).filter _).length ≤ (List.range k).length :=
          List.length_filter_le _ _
      _ = k := List.length_range k
  · rw [List.Sorted, hmap]
    have hpair : List.Pairwise (· < ·) ((List.range k).filter (fun i =>
        decide (1 < (seleccionar_puntos_grado (ordenar_por_x puntos)
          ((linspace xmin xmax (k + 1)).getD i 0)
          ((linspace xmin xmax (k + 1)).getD (i + 1) 0)).1.length))) :=
      List.Pairwise.filter _ (List.pairwise_lt_range k)
    rw [List.pairwise_map]
    have hmem : ∀ i ∈ (List.range k).filter (fun i =>
        decide (1 < (seleccionar_puntos_grado (ordenar_por_x puntos)
          ((linspace xmin xmax (k + 1)).getD i 0)
          ((linspace xmin xmax (k + 1)).getD (i + 1) 0)).1.length)), i < k := by
      intro i hi
      exact List.mem_range.mp (List.mem_of_mem_filter hi)
    refine List.Pairwise.imp_of_mem ?_ hpair
    intro i j hi hj hij
    have hik : i < k := hmem i hi
    have hjk : j < k := hmem j hj
    rw [linspace_getD xmin xmax (k + 1) i (by omega) (by omega),
      linspace_getD xmin xmax (k + 1) j (by omega) (by omega)]
    have hd : 0 ≤ (xmax - xmin) / ((k + 1 - 1 : ℕ) : ℝ) :=
      div_nonneg (sub_nonneg.mpr hab) (Nat.cast_nonneg _)
    have hcast : (i : ℝ) ≤ (j : ℝ) := Nat.cast_le.mpr (Nat.le_of_lt hij)
    have := mul_le_mul_of_nonneg_right hcast hd
    linarith

/-- Witness for claim C10 at the empty point list with one interval: the
single sub-interval keeps fewer than 2 points, so no record at all is
produced. -/
theorem claim_C10_witness :
    (0 : ℝ) ≤ 1
    ∧ ([] : List ((ℝ × ℝ) × List ℝ × ℝ)).length ≤ 1
    ∧ List.Sorted (· ≤ ·) (([] : List ((ℝ × ℝ) × List ℝ × ℝ)).map (fun r => r.1.1))
    ∧ ([] : List ((ℝ × ℝ) × List ℝ × ℝ)).length = ((List.range 1).filter (fun i =>
        decide (1 < (seleccionar_puntos_grado (ordenar_por_x ([] : List (ℝ × ℝ)))
          ((linspace (0 : ℝ) 1 (1 + 1)).getD i 0)
          ((linspace (0 : ℝ) 1 (1 + 1)).getD (i + 1) 0)).1.length))).length :=
  ⟨by norm_num,
    claim_C10_registros (fun _ _ => Except.ok []) (fun x => x) [] 0 1 1 [] (by norm_num) rfl⟩

end CurvaLongitud
